import Mathlib

/-
Verification development for the rate-aggregation core of valutatrade_hub.

The Python sources embedded here:
  - valutatrade_hub/parser_service/storage.py   (RatesStorage.validate_rate,
    cleanup_old_history, create_history_record)
  - valutatrade_hub/parser_service/updater.py   (RatesUpdater.run_update)
  - valutatrade_hub/parser_service/api_clients.py (BaseApiClient._make_request)
  - valutatrade_hub/parser_service/config.py    (ParserConfig constants)
  - valutatrade_hub/core/usecases.py            (RateService.get_rate)
  - valutatrade_hub/core/utils.py               (validate_currency_code)
  - valutatrade_hub/core/currencies.py          (CurrencyRegistry, currency_exists)

Machine reals are modelled as exact rationals extended with NaN and signed
infinities (Python float semantics for the comparisons and arithmetic that
the embedded code performs).  Wall-clock timestamps are abstract strings
supplied by the caller (`now`), matching the code's use of ISO-8601 strings
compared lexicographically.  Network fetches and per-attempt HTTP outcomes
are inputs to the embedded functions.
-/

namespace ValutaTrade

/-- Exact rational multiplication through the normalizing constructor
(`Rat.mul` itself is irreducible, which blocks kernel evaluation); agrees
with `*` by `qMul_eq_mul` below. -/
def qMul (a b : ℚ) : ℚ := mkRat (a.num * b.num) (a.den * b.den)

/-- Exact rational division (`0` on a zero divisor, as Mathlib's `/`);
agrees with `/` by `qDiv_eq_div` below. -/
def qDiv (a b : ℚ) : ℚ := Rat.divInt (a.num * b.den) (a.den * b.num)

/-- Exact rational subtraction; agrees with `-` by `qSub_eq_sub` below. -/
def qSub (a b : ℚ) : ℚ := mkRat (a.num * b.den - b.num * a.den) (a.den * b.den)

/-- Exact rational absolute value; agrees with `|·|` by `qAbs_eq_abs`
below. -/
def qAbs (a : ℚ) : ℚ := mkRat a.num.natAbs a.den

/-- Python `str.upper()` for the ASCII code strings handled here. -/
def pyUpper (s : String) : String := ⟨s.data.map Char.toUpper⟩

/-- Python `str.strip()`: drop whitespace from both ends. -/
def pyStrip (s : String) : String :=
  ⟨(((s.data.dropWhile Char.isWhitespace).reverse).dropWhile
      Char.isWhitespace).reverse⟩

/-- Python's lexicographic `<` on strings (by code point), on the character
lists. -/
def charListLt : List Char → List Char → Bool
  | [], [] => false
  | [], _ :: _ => true
  | _ :: _, [] => false
  | a :: as, b :: bs =>
      if a < b then true else if b < a then false else charListLt as bs

/-- Python float/int values flowing through the parser service: a finite
rational, NaN, or a signed infinity. -/
inductive PyNum where
  | fin (q : ℚ)
  | nan
  | inf
  | ninf
deriving Repr, DecidableEq

/-- A Python value as it can appear as a "rate" in fetched/stored JSON:
a number, a string, or None.  `validate_rate` rejects the non-numeric
constructors (`isinstance(rate, (int, float))` check). -/
inductive PyVal where
  | num (n : PyNum)
  | str (s : String)
  | noneVal
deriving Repr, DecidableEq

/-- Python comparison `n < q` for a float `n` against a finite threshold:
comparisons against NaN are false. -/
def pyNumLtQ (n : PyNum) (q : ℚ) : Bool :=
  match n with
  | .fin a => decide (a < q)
  | .nan => false
  | .inf => false
  | .ninf => true

/-- Python comparison `n > q` for a float `n` against a finite threshold:
comparisons against NaN are false. -/
def pyNumGtQ (n : PyNum) (q : ℚ) : Bool :=
  match n with
  | .fin a => decide (a > q)
  | .nan => false
  | .inf => true
  | .ninf => false

/-- config.py: `MIN_RATE_VALUE: float = 0.00000001`. -/
def MIN_RATE_VALUE : ℚ := mkRat 1 100000000

/-- config.py: `MAX_RATE_VALUE: float = 1000000000`. -/
def MAX_RATE_VALUE : ℚ := 1000000000

/-- storage.py `RatesStorage.validate_rate`: reject non-numeric values,
values below `MIN_RATE_VALUE`, values above `MAX_RATE_VALUE`, NaN and
infinities; the checks run in exactly the source's order (the
`currency_pair` argument is only used for logging). -/
def validate_rate (rate : PyVal) (currency_pair : String) : Bool :=
  match rate with
  | .num n =>
    if pyNumLtQ n MIN_RATE_VALUE then false
    else if pyNumGtQ n MAX_RATE_VALUE then false
    else
      match n with
      | .nan => false
      | .inf => false
      | .ninf => false
      | .fin _ => true
  | _ => false

/-- currencies.py `CurrencyRegistry._initialize_currencies`: the codes
registered at start-up (6 fiat + 5 crypto), stored uppercased. -/
def registryCodes : List String :=
  ["USD", "EUR", "RUB", "GBP", "JPY", "CNY", "BTC", "ETH", "LTC", "XRP", "DOGE"]

/-- currencies.py `currency_exists` / `CurrencyRegistry.is_registered`:
membership of the uppercased code in the registry. -/
def currency_exists (code : String) : Bool :=
  registryCodes.contains (pyUpper code)

/-- utils.py `validate_currency_code`: strip and uppercase, require length
2..5, alphanumeric characters only, and existence in the registry. -/
def validate_currency_code (code : String) : Bool :=
  let c := pyUpper (pyStrip code)
  if 2 ≤ c.length ∧ c.length ≤ 5 then
    if c.data.all Char.isAlphanum then currency_exists c
    else false
  else false

/-- A snapshot entry as read by the Resolver: `{rate, updated_at, source}`.
Rates are finite rationals here, per the RateQuote data model (a stored
quote is a positive finite float). -/
structure RateQuote where
  rate : ℚ
  updated_at : String
  source : String
deriving Repr, DecidableEq

/-- The errors `RateService.get_rate` can raise. -/
inductive RateError where
  | invalidCurrencyCode (code : String)
  | currencyNotFound (code : String)
  | rateUnavailable (fromCode toCode : String)
deriving Repr, DecidableEq

/-- The dictionary `get_rate` returns: the direct-lookup path returns the
stored quote unmodified (including its `source` field); the identity,
inverse and bridge paths build a fresh `{rate, updated_at}` dictionary with
no `source` key. -/
structure ResolvedRate where
  rate : ℚ
  updated_at : String
  source : Option String
deriving Repr, DecidableEq

/-- Python `max(a, b)` on strings: the second argument wins only when it is
strictly greater (lexicographic comparison). -/
def pyStrMax (a b : String) : String :=
  if charListLt a.data b.data then b else a

/-- usecases.py `RateService.get_rate`: uppercase both codes, validate them,
check registry existence, then identity short-circuit, direct lookup,
inverse lookup, USD bridge, and finally `RateUnavailableError`. -/
def get_rate (pairs : List (String × RateQuote)) (now : String)
    (from_currency to_currency : String) : Except RateError ResolvedRate :=
  let f := pyUpper from_currency
  let t := pyUpper to_currency
  if !validate_currency_code f then .error (.invalidCurrencyCode f)
  else if !validate_currency_code t then .error (.invalidCurrencyCode t)
  else if !currency_exists f then .error (.currencyNotFound f)
  else if !currency_exists t then .error (.currencyNotFound t)
  else if f = t then .ok ⟨1, now, none⟩
  else
    match pairs.lookup (f ++ "_" ++ t) with
    | some q => .ok ⟨q.rate, q.updated_at, some q.source⟩
    | none =>
      match pairs.lookup (t ++ "_" ++ f) with
      | some q => .ok ⟨qDiv 1 q.rate, q.updated_at, none⟩
      | none =>
        if f ≠ "USD" ∧ t ≠ "USD" then
          match pairs.lookup (f ++ "_USD"), pairs.lookup ("USD_" ++ t) with
          | some qf, some qt =>
              .ok ⟨qMul qf.rate qt.rate, pyStrMax qf.updated_at qt.updated_at, none⟩
          | _, _ => .error (.rateUnavailable f t)
        else .error (.rateUnavailable f t)

/-- Python float subtraction on the extended numbers (NaN propagates,
`inf - inf = nan`). -/
def pnSub : PyNum → PyNum → PyNum
  | .nan, _ => .nan
  | _, .nan => .nan
  | .fin a, .fin b => .fin (qSub a b)
  | .inf, .inf => .nan
  | .inf, _ => .inf
  | .ninf, .ninf => .nan
  | .ninf, _ => .ninf
  | .fin _, .inf => .ninf
  | .fin _, .ninf => .inf

/-- Python float division; `none` models a `ZeroDivisionError`. -/
def pnDiv : PyNum → PyNum → Option PyNum
  | _, .fin 0 => none
  | .nan, _ => some .nan
  | _, .nan => some .nan
  | .fin a, .fin b => some (.fin (qDiv a b))
  | .inf, .fin b => some (if 0 < b then .inf else .ninf)
  | .ninf, .fin b => some (if 0 < b then .ninf else .inf)
  | .inf, _ => some .nan
  | .ninf, _ => some .nan
  | .fin _, .inf => some (.fin 0)
  | .fin _, .ninf => some (.fin 0)

/-- Python float multiplication (NaN propagates, `inf * 0 = nan`). -/
def pnMul : PyNum → PyNum → PyNum
  | .nan, _ => .nan
  | _, .nan => .nan
  | .fin a, .fin b => .fin (qMul a b)
  | .inf, .inf => .inf
  | .inf, .ninf => .ninf
  | .ninf, .inf => .ninf
  | .ninf, .ninf => .inf
  | .inf, .fin b => if b = 0 then .nan else if 0 < b then .inf else .ninf
  | .fin a, .inf => if a = 0 then .nan else if 0 < a then .inf else .ninf
  | .ninf, .fin b => if b = 0 then .nan else if 0 < b then .ninf else .inf
  | .fin a, .ninf => if a = 0 then .nan else if 0 < a then .ninf else .inf

/-- Python `abs` on floats. -/
def pnAbs : PyNum → PyNum
  | .fin a => .fin (qAbs a)
  | .nan => .nan
  | .inf => .inf
  | .ninf => .inf

/-- Python truthiness of the values a stored rate can hold (`0`, `0.0`,
`""` and `None` are falsy; NaN and the infinities are truthy). -/
def isTruthy : PyVal → Bool
  | .num (.fin q) => if q = 0 then false else true
  | .num _ => true
  | .str s => if s = "" then false else true
  | .noneVal => false

/-- updater.py line 140, the meta entry
`abs((rate - current_rate) / current_rate * 100) if current_rate else None`.
The outer `none` models an exception while evaluating the expression
(`TypeError` on a non-numeric previous rate, `ZeroDivisionError`), which the
`try` block around the history append swallows, skipping the record.
`some m` is the successfully computed `change_pct` value. -/
def mkChangePct (rate : PyVal) (prev : Option PyVal) : Option (Option PyVal) :=
  match prev with
  | none => some none
  | some p =>
    if isTruthy p then
      match rate, p with
      | .num r, .num pn =>
        match pnDiv (pnSub r pn) pn with
        | none => none
        | some d => some (some (.num (pnAbs (pnMul d (.fin 100)))))
      | _, _ => none
    else some none

/-- A snapshot entry as written by the updater: the fetched value is stored
as-is (`pairs[pair_key] = {"rate": rate, "updated_at": ..., "source": ...}`),
so the rate field keeps the full Python-value type. -/
structure StoredQuote where
  rate : PyVal
  updated_at : String
  source : String
deriving Repr, DecidableEq

/-- The keys of a stored quote dictionary, as written by the updater's save
path.  The expression `pair_key in current_pair` at updater.py line 147
tests membership of the pair key among these keys. -/
def quoteKeys : List String := ["rate", "updated_at", "source"]

/-- The `meta` mapping of a history record. -/
structure HistoryMeta where
  previous_rate : Option PyVal
  change_pct : Option PyVal
deriving Repr, DecidableEq

/-- storage.py `create_history_record`'s result shape. -/
structure HistoryRecord where
  id : String
  from_currency : String
  to_currency : String
  rate : PyVal
  timestamp : String
  source : String
  meta : HistoryMeta
deriving Repr, DecidableEq

/-- storage.py `RatesStorage.create_history_record`: uppercases the codes,
derives the id from codes and timestamp.  The wall-clock timestamp taken
inside the function is the abstract `timestamp` argument here. -/
def create_history_record (from_currency to_currency : String) (rate : PyVal)
    (source : String) (meta : HistoryMeta) (timestamp : String) : HistoryRecord :=
  let fu := pyUpper from_currency
  let tu := pyUpper to_currency
  { id := fu ++ "_" ++ tu ++ "_" ++ timestamp,
    from_currency := fu, to_currency := tu,
    rate := rate, timestamp := timestamp, source := source, meta := meta }

/-- storage.py `RatesStorage.cleanup_old_history`: when the history exceeds
`max_records`, keep `history[-max_records:]`.  Python's `[-0:]` slice is the
whole list, hence the explicit zero case. -/
def cleanup_old_history (history : List HistoryRecord) (max_records : Nat) :
    List HistoryRecord :=
  if history.length > max_records then
    if max_records = 0 then history
    else history.drop (history.length - max_records)
  else history

/-- config.py `CRYPTO_CURRENCIES`. -/
def CRYPTO_CURRENCIES : List String :=
  ["BTC", "ETH", "SOL", "BNB", "XRP", "ADA", "DOGE", "DOT", "MATIC", "LTC",
   "SHIB", "TRX", "AVAX", "LINK", "UNI"]

/-- Python `d[k] = v` on an insertion-ordered dict modelled as an
association list: replace in place if the key exists, else append. -/
def dictInsert {α : Type} : List (String × α) → String → α → List (String × α)
  | [], k, v => [(k, v)]
  | (k', v') :: rest, k, v =>
      if k' = k then (k, v) :: rest else (k', v') :: dictInsert rest k v

/-- Python `d.update(upd)` on insertion-ordered dicts. -/
def dictUpdate {α : Type} (d upd : List (String × α)) : List (String × α) :=
  upd.foldl (fun acc p => dictInsert acc p.1 p.2) d

/-- Split a character list at the first underscore. -/
def splitUnderscore : List Char → Option (List Char × List Char)
  | [] => none
  | c :: rest =>
      if c = '_' then some ([], rest)
      else
        match splitUnderscore rest with
        | none => none
        | some (a, b) => some (c :: a, b)

/-- Python `pair_key.split("_", 1)` followed by unpacking into two names;
`none` models the `ValueError` raised when the key has no underscore. -/
def splitOnce (s : String) : Option (String × String) :=
  (splitUnderscore s.data).map (fun p => (⟨p.1⟩, ⟨p.2⟩))

/-- The outcome of one `fetch_rates()` call of a Quote Source: a pair map,
or an `ApiRequestError` carrying its message text. -/
inductive FetchOutcome where
  | ok (rates : List (String × PyVal))
  | apiError (msg : String)
deriving Repr, DecidableEq

/-- One per-source step of updater.py lines 66-91: merge the fetched map on
success (`new_rates.update(...)`; the empty-map check only affects logging);
on `ApiRequestError`, re-raise when the run was scoped to exactly this
source, otherwise continue with the accumulator. -/
def applyFetch (acc : List (String × PyVal)) (f : FetchOutcome) (isScoped : Bool) :
    Except String (List (String × PyVal)) :=
  match f with
  | .ok rates => .ok (dictUpdate acc rates)
  | .apiError msg => if isScoped then .error msg else .ok acc

/-- updater.py lines 62-91: the fetch/merge phase over the two configured
clients, CoinGecko first, then ExchangeRate-API, honouring the `source`
filter.  An `Except.error` is a raised `ApiRequestError` (its message). -/
def gatherRates (source : String) (cg ex : FetchOutcome) :
    Except String (List (String × PyVal)) :=
  let step1 : Except String (List (String × PyVal)) :=
    if source = "all" ∨ source = "coingecko" then
      applyFetch [] cg (source == "coingecko")
    else .ok []
  match step1 with
  | .error e => .error e
  | .ok acc =>
      if source = "all" ∨ source = "exchangerate" then
        applyFetch acc ex (source == "exchangerate")
      else .ok acc

/-- All pair keys of a merged fetch result contain an underscore.  Both
concrete clients only emit keys of the form `FROM_TO`
(api_clients.py lines 160 and 248), so this holds for every reachable
merge; a key without an underscore would raise `ValueError` at the unpack
in updater.py line 114. -/
def gatherKeysWellFormed (source : String) (cg ex : FetchOutcome) : Bool :=
  match gatherRates source cg ex with
  | .error _ => true
  | .ok nr => nr.all (fun p => p.1.data.contains '_')

/-- The in-memory state of the per-pair loop of updater.py lines 102-150:
the (not yet saved) pairs map, the history (each append is persisted
immediately by `add_history_record`), and the two counters. -/
structure LoopState where
  pairs : List (String × StoredQuote)
  history : List HistoryRecord
  updated_count : Nat
  new_count : Nat
deriving Repr, DecidableEq

/-- One iteration of the per-pair loop (updater.py lines 107-150): skip
invalid rates; split the key (a missing underscore raises `ValueError`);
attribute the source by the crypto list; overwrite the pair; best-effort
append a history record; classify via `pair_key in current_pair` — note
this tests membership among the keys of the previous quote dictionary
(`rate`/`updated_at`/`source`), not in the pairs mapping. -/
def processPair (now : String) (ls : LoopState) (pair_key : String)
    (rate : PyVal) : Except String LoopState :=
  if !validate_rate rate pair_key then .ok ls
  else
    match splitOnce pair_key with
    | none => .error "ValueError: not enough values to unpack"
    | some (from_curr, to_curr) =>
      let source_name :=
        if CRYPTO_CURRENCIES.contains from_curr then "CoinGecko"
        else "ExchangeRate-API"
      let current_pair := ls.pairs.lookup pair_key
      let current_rate := current_pair.map StoredQuote.rate
      let pairs' := dictInsert ls.pairs pair_key ⟨rate, now, source_name⟩
      let history' :=
        match mkChangePct rate current_rate with
        | none => ls.history
        | some cp =>
            ls.history ++
              [create_history_record from_curr to_curr rate source_name
                ⟨current_rate, cp⟩ now]
      let is_updated :=
        match current_pair with
        | none => false
        | some _ => quoteKeys.contains pair_key
      .ok ⟨pairs', history',
           ls.updated_count + (if is_updated then 1 else 0),
           ls.new_count + (if is_updated then 0 else 1)⟩

/-- The whole per-pair loop.  On a raised `ValueError` the error carries the
history as persisted so far (each append had already been saved), while the
in-memory pairs map is abandoned (`save_rates` is never reached). -/
def processGo (now : String) :
    LoopState → List (String × PyVal) →
    Except (String × List HistoryRecord) LoopState
  | ls, [] => .ok ls
  | ls, (pk, r) :: rest =>
    match processPair now ls pk r with
    | .error e => .error (e, ls.history)
    | .ok ls' => processGo now ls' rest

/-- updater.py result dictionary.  Fields absent on a given return path are
`none`; `execution_time` (wall-clock) is not modelled. -/
structure UpdateResult where
  success : Bool
  message : String
  total_pairs : Option Nat
  updated_pairs : Option Nat
  new_pairs : Option Nat
  source : Option String
deriving Repr, DecidableEq

/-- updater.py cumulative `self.stats`. -/
structure UpdaterStats where
  total_updates : Nat
  successful_updates : Nat
  failed_updates : Nat
  last_update_time : Option String
  last_error : Option String
deriving Repr, DecidableEq

/-- The stats mutation of the top-level `except` branch. -/
def failStats (s : UpdaterStats) (e : String) : UpdaterStats :=
  { s with total_updates := s.total_updates + 1,
           failed_updates := s.failed_updates + 1,
           last_error := some e }

/-- The stats mutation of the success path. -/
def succStats (s : UpdaterStats) (now : String) : UpdaterStats :=
  { s with total_updates := s.total_updates + 1,
           successful_updates := s.successful_updates + 1,
           last_update_time := some now }

/-- The persisted state that `run_update` reads and writes: the snapshot
(pairs plus `last_refresh`) and the history log. -/
structure Store where
  pairs : List (String × StoredQuote)
  last_refresh : Option String
  history : List HistoryRecord
deriving Repr, DecidableEq

/-- Message of the empty-merge early return (updater.py line 98). -/
def msgEmpty : String := "Не удалось получить курсы ни от одного источника"

/-- Message of the success result (updater.py line 168). -/
def msgOk : String := "Обновление успешно завершено"

/-- Message of the top-level exception result (updater.py line 193). -/
def msgFail (e : String) : String := "Ошибка при обновлении: " ++ e

/-- updater.py `RatesUpdater.run_update`: load the snapshot, fetch and merge
per the source filter, early-return on an empty merge, run the per-pair
loop, save the snapshot with a fresh `last_refresh`, trim the history to
1000 records, and update the stats.  The top-level `except Exception`
converts any raised error (including the scoped re-raised
`ApiRequestError`) into a failure result, so the function always returns a
result triple. -/
def run_update (store : Store) (stats : UpdaterStats) (source : String)
    (coingeckoFetch exchangerateFetch : FetchOutcome) (now : String) :
    UpdateResult × Store × UpdaterStats :=
  match gatherRates source coingeckoFetch exchangerateFetch with
  | .error e =>
      (⟨false, msgFail e, none, none, none, some source⟩, store, failStats stats e)
  | .ok new_rates =>
      if new_rates.isEmpty then
        (⟨false, msgEmpty, none, some 0, none, none⟩, store, stats)
      else
        match processGo now ⟨store.pairs, store.history, 0, 0⟩ new_rates with
        | .error (e, histSoFar) =>
            (⟨false, msgFail e, none, none, none, some source⟩,
             { store with history := histSoFar }, failStats stats e)
        | .ok ls =>
            (⟨true, msgOk, some ls.pairs.length, some ls.updated_count,
              some ls.new_count, some source⟩,
             ⟨ls.pairs, some now, cleanup_old_history ls.history 1000⟩,
             succStats stats now)

/-- config.py: `RETRY_ATTEMPTS: int = 3`. -/
def RETRY_ATTEMPTS : Nat := 3

/-- config.py: `RETRY_DELAY: int = 5` (seconds between attempts). -/
def RETRY_DELAY : ℚ := 5

/-- What one HTTP attempt inside `_make_request` can produce. -/
inductive AttemptOutcome where
  | okJson
  | http (code : Nat)
  | timeout
  | connError
  | reqError
  | badJson
deriving Repr, DecidableEq

deriving instance DecidableEq for Except

/-- The observable behaviour of one `_make_request` call: the final outcome
(`Except.error` is a raised `ApiRequestError` with its reason text) and the
sequence of `time.sleep` delays performed before retries, in order. -/
structure ReqTrace where
  result : Except String Unit
  sleeps : List ℚ
deriving Repr, DecidableEq

/-- api_clients.py `BaseApiClient._make_request`, one loop iteration per
attempt (`for attempt in range(RETRY_ATTEMPTS)`), the list holding the
outcome of each successive attempt.  A 429 backs off
`RETRY_DELAY * (attempt + 1)`; a timeout, connection error or generic
request error sleeps the constant `RETRY_DELAY`; any other HTTP status and
malformed JSON raise immediately.  The empty-list case is the for-else
raise after the range is exhausted (unreachable when the list covers all
`RETRY_ATTEMPTS` attempts, since the last attempt always raises). -/
def mrGo : List AttemptOutcome → Nat → ReqTrace
  | [], _ => ⟨.error "Не удалось выполнить запрос после 3 попыток", []⟩
  | o :: rest, attempt =>
    match o with
    | .okJson => ⟨.ok (), []⟩
    | .http 429 =>
        if attempt < RETRY_ATTEMPTS - 1 then
          let t := mrGo rest (attempt + 1)
          ⟨t.result, qMul RETRY_DELAY ((attempt + 1 : Nat) : ℚ) :: t.sleeps⟩
        else ⟨.error "Превышен лимит запросов", []⟩
    | .http _ => ⟨.error "Ошибка статуса", []⟩
    | .timeout =>
        if attempt < RETRY_ATTEMPTS - 1 then
          let t := mrGo rest (attempt + 1)
          ⟨t.result, RETRY_DELAY :: t.sleeps⟩
        else ⟨.error "Таймаут при подключении к API", []⟩
    | .connError =>
        if attempt < RETRY_ATTEMPTS - 1 then
          let t := mrGo rest (attempt + 1)
          ⟨t.result, RETRY_DELAY :: t.sleeps⟩
        else ⟨.error "Не удалось подключиться к API", []⟩
    | .reqError =>
        if attempt < RETRY_ATTEMPTS - 1 then
          let t := mrGo rest (attempt + 1)
          ⟨t.result, RETRY_DELAY :: t.sleeps⟩
        else ⟨.error "Ошибка при выполнении запроса", []⟩
    | .badJson => ⟨.error "Неверный формат ответа от API", []⟩

/-- api_clients.py `_make_request` from the top of its loop: at most
`RETRY_ATTEMPTS` of the supplied per-attempt outcomes are consumed. -/
def make_request (outcomes : List AttemptOutcome) : ReqTrace :=
  mrGo (outcomes.take RETRY_ATTEMPTS) 0

/-- `qMul` is rational multiplication. -/
theorem qMul_eq_mul (a b : ℚ) : qMul a b = a * b := by
  rw [qMul, Rat.mkRat_eq_div]
  push_cast
  rw [← div_mul_div_comm, Rat.num_div_den, Rat.num_div_den]

/-- `qDiv` is rational division (both send a zero divisor to zero). -/
theorem qDiv_eq_div (a b : ℚ) : qDiv a b = a / b := by
  rw [qDiv, Rat.divInt_eq_div]
  push_cast
  conv_rhs => rw [← Rat.num_div_den a, ← Rat.num_div_den b]
  rw [div_div_eq_mul_div, div_mul_eq_mul_div, div_div]

/-- `qSub` is rational subtraction. -/
theorem qSub_eq_sub (a b : ℚ) : qSub a b = a - b := by
  have ha : ((a.den : ℚ)) ≠ 0 := Nat.cast_ne_zero.mpr a.den_nz
  have hb : ((b.den : ℚ)) ≠ 0 := Nat.cast_ne_zero.mpr b.den_nz
  rw [qSub, Rat.mkRat_eq_div]
  push_cast
  conv_rhs => rw [← Rat.num_div_den a, ← Rat.num_div_den b]
  rw [div_sub_div _ _ ha hb]
  ring_nf

/-- `qAbs` is the rational absolute value. -/
theorem qAbs_eq_abs (a : ℚ) : qAbs a = |a| := by
  rw [qAbs, Rat.mkRat_eq_div]
  conv_rhs => rw [← Rat.num_div_den a]
  rw [abs_div]
  congr 1
  · simp [Int.cast_natAbs]
  · rw [abs_of_nonneg (by positivity)]

/-- C6: `validate_rate` accepts rates of exactly 1e-8 (= 1/100000000) and
exactly 1e9, and rejects non-numeric values, 9.9e-9 (= 99/10000000000),
1.1e9, NaN, and infinity. -/
theorem C6_validator_boundary :
    validate_rate (.num (.fin (mkRat 1 100000000))) "BTC_USD" = true ∧
    validate_rate (.num (.fin 1000000000)) "BTC_USD" = true ∧
    validate_rate (.str "not-a-number") "BTC_USD" = false ∧
    validate_rate .noneVal "BTC_USD" = false ∧
    validate_rate (.num (.fin (mkRat 99 10000000000))) "BTC_USD" = false ∧
    validate_rate (.num (.fin 1100000000)) "BTC_USD" = false ∧
    validate_rate (.num .nan) "BTC_USD" = false ∧
    validate_rate (.num .inf) "BTC_USD" = false := by decide

/-- C3: for distinct registered codes A and B, neither USD, with no direct
and no inverse entry but both `A_USD` and `USD_B` present, `get_rate`
returns the product of the two rates and the string-maximum of the two
`updated_at` values. -/
theorem C3_usd_bridge (pairs : List (String × RateQuote)) (now A B : String)
    (qa qb : RateQuote)
    (hAv : validate_currency_code A = true)
    (hBv : validate_currency_code B = true)
    (hAe : currency_exists A = true) (hBe : currency_exists B = true)
    (hAu : pyUpper A = A) (hBu : pyUpper B = B)
    (hne : A ≠ B) (hA : A ≠ "USD") (hB : B ≠ "USD")
    (h1 : pairs.lookup (A ++ "_" ++ B) = none)
    (h2 : pairs.lookup (B ++ "_" ++ A) = none)
    (h3 : pairs.lookup (A ++ "_USD") = some qa)
    (h4 : pairs.lookup ("USD_" ++ B) = some qb) :
    get_rate pairs now A B =
      .ok ⟨qa.rate * qb.rate, pyStrMax qa.updated_at qb.updated_at, none⟩ := by
  simp only [get_rate, hAu, hBu, hAv, hBv, hAe, hBe, h1, h2, h3, h4,
    Bool.not_true, Bool.false_eq_true, if_false]
  rw [if_neg hne, if_pos ⟨hA, hB⟩, qMul_eq_mul]

/-- C3 witness: `BTC_USD = 2` and `USD_EUR = 3` with no direct or inverse
pair resolve `BTC → EUR` to rate 6 with the later timestamp. -/
theorem C3_usd_bridge_witness :
    get_rate [("BTC_USD", ⟨2, "T1", "CoinGecko"⟩),
              ("USD_EUR", ⟨3, "T2", "ExchangeRate-API"⟩)] "T" "BTC" "EUR" =
      .ok ⟨6, "T2", none⟩ := by
  rw [C3_usd_bridge [("BTC_USD", ⟨2, "T1", "CoinGecko"⟩),
      ("USD_EUR", ⟨3, "T2", "ExchangeRate-API"⟩)] "T" "BTC" "EUR" ⟨2, "T1", "CoinGecko"⟩
    ⟨3, "T2", "ExchangeRate-API"⟩ (by decide) (by decide) (by decide) (by decide)
    (by decide) (by decide) (by decide) (by decide) (by decide) rfl rfl rfl rfl]
  rw [show ((2 : ℚ) * 3 = 6) by rw [← qMul_eq_mul]; decide]
  decide

/-- C4: for distinct registered codes A and B with a stored `B_A` quote of
positive rate r and no direct `A_B` entry, `get_rate(A, B)` is exactly
`1 / r` with the stored quote's `updated_at`.  (The positivity hypothesis
reflects the RateQuote data model; a zero stored rate would instead raise
`ZeroDivisionError` in the source.) -/
theorem C4_inverse_lookup (pairs : List (String × RateQuote)) (now A B : String)
    (q : RateQuote)
    (hAv : validate_currency_code A = true)
    (hBv : validate_currency_code B = true)
    (hAe : currency_exists A = true) (hBe : currency_exists B = true)
    (hAu : pyUpper A = A) (hBu : pyUpper B = B)
    (hne : A ≠ B)
    (h1 : pairs.lookup (A ++ "_" ++ B) = none)
    (h2 : pairs.lookup (B ++ "_" ++ A) = some q)
    (hq : 0 < q.rate) :
    get_rate pairs now A B = .ok ⟨1 / q.rate, q.updated_at, none⟩ := by
  simp only [get_rate, hAu, hBu, hAv, hBv, hAe, hBe, h1, h2,
    Bool.not_true, Bool.false_eq_true, if_false]
  rw [if_neg hne, qDiv_eq_div]

/-- C4 witness: a stored `USD_EUR = 4` entry resolves `EUR → USD` to 1/4. -/
theorem C4_inverse_lookup_witness :
    get_rate [("USD_EUR", ⟨4, "T3", "ExchangeRate-API"⟩)] "T" "EUR" "USD" =
      .ok ⟨mkRat 1 4, "T3", none⟩ := by
  rw [C4_inverse_lookup [("USD_EUR", ⟨4, "T3", "ExchangeRate-API"⟩)] "T" "EUR"
      "USD" ⟨4, "T3", "ExchangeRate-API"⟩
    (by decide) (by decide) (by decide) (by decide) (by decide) (by decide)
    (by decide) rfl rfl (by decide)]
  rw [show ((1 : ℚ) / 4 = mkRat 1 4) by rw [← qDiv_eq_div]; decide]

/-- C9: a code that passes validation (which includes registry existence)
resolves `get_rate(X, X)` to rate 1.0 for every snapshot, bypassing the
pairs entirely; a code failing validation or not registered is rejected
with `InvalidCurrencyCodeError` or `CurrencyNotFoundError` before any
lookup. -/
theorem C9_identity_short_circuit (pairs : List (String × RateQuote))
    (now X : String) :
    (validate_currency_code (pyUpper X) = true ∧
       currency_exists (pyUpper X) = true →
      get_rate pairs now X X = .ok ⟨1, now, none⟩) ∧
    (validate_currency_code (pyUpper X) = false ∨
       currency_exists (pyUpper X) = false →
      get_rate pairs now X X = .error (.invalidCurrencyCode (pyUpper X)) ∨
      get_rate pairs now X X = .error (.currencyNotFound (pyUpper X))) := by
  constructor
  · rintro ⟨hv, he⟩
    simp [get_rate, hv, he]
  · intro h
    rcases h with hv | he
    · left
      simp [get_rate, hv]
    · cases hv2 : validate_currency_code (pyUpper X) with
      | false =>
        left
        simp [get_rate, hv2]
      | true =>
        right
        simp [get_rate, hv2, he]

/-- C9 witness: `get_rate("USD", "USD")` is 1.0 over the empty snapshot. -/
theorem C9_identity_witness :
    get_rate [] "T" "USD" "USD" = .ok ⟨1, "T", none⟩ :=
  (C9_identity_short_circuit [] "T" "USD").1 ⟨by decide, by decide⟩

/-- General form of the history cap: `cleanup_old_history` at the cap used
by `run_update` never returns more than 1000 records. -/
theorem cleanup_old_history_length_le (h : List HistoryRecord) :
    (cleanup_old_history h 1000).length ≤ 1000 := by
  unfold cleanup_old_history
  by_cases hgt : h.length > 1000
  · simp only [hgt, if_true, if_pos]
    rw [if_neg (by decide : ¬(1000 = 0))]
    simp only [List.length_drop]
    omega
  · rw [if_neg hgt]
    omega

/-- The trimmed history is a suffix of the original: only the oldest
records are dropped and the survivors keep their insertion order. -/
theorem cleanup_old_history_suffix (h : List HistoryRecord) :
    cleanup_old_history h 1000 <:+ h := by
  unfold cleanup_old_history
  by_cases hgt : h.length > 1000
  · simp only [hgt, if_true, if_pos]
    rw [if_neg (by decide : ¬(1000 = 0))]
    exact List.drop_suffix _ _
  · rw [if_neg hgt]

/-- C1 (code bug): with a snapshot that already holds `BTC_USD`, re-fetching
the same pair makes `run_update` report `updated_pairs = 0` and
`new_pairs = 1`, because updater.py line 147 tests
`pair_key in current_pair` (key membership in the previous quote
dictionary, whose keys are rate/updated_at/source) instead of membership in
the snapshot's pairs mapping; the claim (and spec step 5) requires
`updated_pairs = 1, new_pairs = 0` here.  The history meta shows the pair
was recognized as pre-existing (`previous_rate = 50000`, `change_pct = 2`),
so the classification is a slip, not intent. -/
theorem C1_preexisting_pair_counted_as_new :
    run_update ⟨[("BTC_USD", ⟨.num (.fin 50000), "T0", "CoinGecko"⟩)],
        some "T0", []⟩
      ⟨0, 0, 0, none, none⟩ "coingecko" (.ok [("BTC_USD", .num (.fin 51000))])
      (.ok []) "T1" =
      (⟨true, msgOk, some 1, some 0, some 1, some "coingecko"⟩,
       ⟨[("BTC_USD", ⟨.num (.fin 51000), "T1", "CoinGecko"⟩)], some "T1",
        [⟨"BTC_USD_T1", "BTC", "USD", .num (.fin 51000), "T1", "CoinGecko",
          ⟨some (.num (.fin 50000)), some (.num (.fin 2))⟩⟩]⟩,
       ⟨1, 1, 0, some "T1", none⟩) := by decide

/-- C2 counterexample: in a source-scoped run whose single Quote Source
raises ApiRequestError, the error does NOT propagate out of `run_update`:
the top-level `except Exception` (updater.py line 183) catches the
re-raised error, and the caller receives a structured failure result — the
claim asserts the run aborts by raising to the caller. -/
theorem C2_scoped_error_is_caught :
    run_update ⟨[], none, []⟩ ⟨0, 0, 0, none, none⟩ "coingecko"
        (.apiError "CoinGecko: Таймаут при подключении к API")
        (.ok [("EUR_USD", .num (.fin 1))]) "T" =
      (⟨false, msgFail "CoinGecko: Таймаут при подключении к API",
        none, none, none, some "coingecko"⟩,
       ⟨[], none, []⟩,
       ⟨1, 0, 1, none, some "CoinGecko: Таймаут при подключении к API"⟩) := by
  decide

/-- C2 (amended): a scoped ApiRequestError aborts the fetch phase — it is
re-raised instead of absorbed — but is then caught by `run_update`'s
top-level handler, so the caller receives `success = false` with the
wrapped error message and the stats record a failed update; nothing is
raised to the caller.  In the "all" case the per-source error is absorbed
and the run continues with the next source's rates. -/
theorem C2_scoped_abort_vs_all_continue :
    (∀ store stats msg ex now,
      run_update store stats "coingecko" (.apiError msg) ex now =
        (⟨false, msgFail msg, none, none, none, some "coingecko"⟩, store,
         failStats stats msg)) ∧
    (∀ store stats msg cg now,
      run_update store stats "exchangerate" cg (.apiError msg) now =
        (⟨false, msgFail msg, none, none, none, some "exchangerate"⟩, store,
         failStats stats msg)) ∧
    (∀ msg rates, gatherRates "all" (.apiError msg) (.ok rates) =
        .ok (dictUpdate [] rates)) := by
  refine ⟨fun store stats msg ex now => rfl, fun store stats msg cg now => ?_,
    fun msg rates => rfl⟩
  rfl

/-- C7: when the merge over the requested sources yields no pairs at all,
`run_update` returns `success = false` with `updated_pairs = 0` and leaves
the persisted snapshot and history untouched (the whole store and the stats
are returned unchanged). -/
theorem C7_empty_merge_no_mutation (store : Store) (stats : UpdaterStats)
    (source : String) (cg ex : FetchOutcome) (now : String)
    (h : gatherRates source cg ex = .ok []) :
    run_update store stats source cg ex now =
      (⟨false, msgEmpty, none, some 0, none, none⟩, store, stats) := by
  unfold run_update
  rw [h]
  rfl

/-- C7 witness: both sources consulted, one failing and one empty, over a
non-trivial store and stats: the result is the empty-merge failure and the
state is byte-for-byte unchanged. -/
theorem C7_empty_merge_witness :
    run_update ⟨[("X_Y", ⟨.num (.fin 1), "T0", "test"⟩)], some "T0", []⟩
        ⟨2, 1, 1, some "T0", none⟩ "all" (.apiError "boom") (.ok []) "T" =
      (⟨false, msgEmpty, none, some 0, none, none⟩,
       ⟨[("X_Y", ⟨.num (.fin 1), "T0", "test"⟩)], some "T0", []⟩,
       ⟨2, 1, 1, some "T0", none⟩) :=
  C7_empty_merge_no_mutation _ _ _ _ _ _ (by decide)

/-- An underscore in the character list makes `splitUnderscore` succeed. -/
theorem splitUnderscore_isSome (cs : List Char) (h : cs.contains '_' = true) :
    (splitUnderscore cs).isSome = true := by
  induction cs with
  | nil => simp at h
  | cons c rest ih =>
    unfold splitUnderscore
    by_cases hc : c = '_'
    · simp [hc]
    · have hmem : rest.contains '_' = true := by
        simp only [List.contains_cons, Bool.or_eq_true] at h
        rcases h with h1 | h2
        · exact absurd (eq_of_beq h1).symm hc
        · exact h2
      have hrest := ih hmem
      rw [if_neg hc]
      cases hs : splitUnderscore rest with
      | none =>
        rw [hs] at hrest
        simp at hrest
      | some p =>
        obtain ⟨a, b⟩ := p
        simp

/-- A pair whose key holds an underscore never raises in `processPair`. -/
theorem processPair_ok (now : String) (ls : LoopState) (pk : String)
    (r : PyVal) (h : pk.data.contains '_' = true) :
    ∃ x, processPair now ls pk r = .ok x := by
  unfold processPair
  by_cases hv : validate_rate r pk = true
  · simp only [hv, Bool.not_true, Bool.false_eq_true, if_false]
    have hsome := splitUnderscore_isSome pk.data h
    cases hs : splitOnce pk with
    | none =>
      exfalso
      unfold splitOnce at hs
      cases h2 : splitUnderscore pk.data with
      | none =>
        rw [h2] at hsome
        simp at hsome
      | some p =>
        rw [h2] at hs
        simp at hs
    | some p =>
      obtain ⟨fc, tc⟩ := p
      exact ⟨_, rfl⟩
  · have hv' : validate_rate r pk = false := by
      cases hvv : validate_rate r pk
      · rfl
      · exact absurd hvv hv
    simp only [hv', Bool.not_false, if_true]
    exact ⟨ls, rfl⟩

/-- With well-formed keys the per-pair loop never raises. -/
theorem processGo_ok (now : String) (l : List (String × PyVal))
    (hk : l.all (fun p => p.1.data.contains '_') = true) :
    ∀ ls, ∃ x, processGo now ls l = .ok x := by
  induction l with
  | nil =>
    intro ls
    exact ⟨ls, rfl⟩
  | cons hd tl ih =>
    intro ls
    obtain ⟨pk, r⟩ := hd
    simp only [List.all_cons, Bool.and_eq_true] at hk
    obtain ⟨hpk, htl⟩ := hk
    obtain ⟨x, hx⟩ := processPair_ok now ls pk r hpk
    unfold processGo
    rw [hx]
    exact ih htl x

/-- C8: for every completed `run_update` — success or failure — the stored
history stays within the 1000-record retention cap, provided it was within
the cap before the run and the merged pair keys are well-formed (which the
two concrete clients guarantee, always emitting `FROM_TO` keys); and the
trim keeps exactly a suffix of the accumulated history: the dropped
records are the oldest, the survivors keep insertion order. -/
theorem C8_history_retention :
    (∀ store stats source cg ex now,
       store.history.length ≤ 1000 →
       gatherKeysWellFormed source cg ex = true →
       ((run_update store stats source cg ex now).2.1).history.length ≤
         1000) ∧
    (∀ h, (cleanup_old_history h 1000).length ≤ 1000 ∧
          cleanup_old_history h 1000 <:+ h) := by
  constructor
  · intro store stats source cg ex now hlen hkeys
    unfold run_update
    split
    · exact hlen
    · next nr heq =>
      split
      · exact hlen
      · have hk : nr.all (fun p => p.1.data.contains '_') = true := by
          unfold gatherKeysWellFormed at hkeys
          rw [heq] at hkeys
          exact hkeys
        obtain ⟨ls', hls⟩ :=
          processGo_ok now nr hk ⟨store.pairs, store.history, 0, 0⟩
        rw [hls]
        exact cleanup_old_history_length_le _
  · intro h
    exact ⟨cleanup_old_history_length_le h, cleanup_old_history_suffix h⟩

/-- C8 witness: a concrete run over a store at the cap boundary keeps the
history within 1000 records. -/
theorem C8_history_retention_witness :
    ((run_update ⟨[], none, []⟩ ⟨0, 0, 0, none, none⟩ "all"
        (.ok [("BTC_USD", .num (.fin 50000))]) (.ok [])
        "T").2.1).history.length ≤ 1000 :=
  C8_history_retention.1 ⟨[], none, []⟩ ⟨0, 0, 0, none, none⟩ "all"
    (.ok [("BTC_USD", .num (.fin 50000))]) (.ok []) "T" (by decide)
    (by decide)

/-- C10: a source filter outside {"all", "coingecko", "exchangerate"}
matches neither client, so whatever the two fetches would have produced,
`run_update` merges nothing and returns the empty-merge failure
(`success = false`, `updated_pairs = 0`) with the snapshot, history and
cumulative stats all unchanged. -/
theorem C10_unknown_source_no_effect (store : Store) (stats : UpdaterStats)
    (source : String) (cg ex : FetchOutcome) (now : String)
    (h1 : source ≠ "all") (h2 : source ≠ "coingecko")
    (h3 : source ≠ "exchangerate") :
    run_update store stats source cg ex now =
      (⟨false, msgEmpty, none, some 0, none, none⟩, store, stats) := by
  have hg : gatherRates source cg ex = .ok [] := by
    simp [gatherRates, h1, h2, h3]
  unfold run_update
  rw [hg]
  rfl

/-- C10 witness: the filter "bogus" with one fetch succeeding and the other
failing: no fetch is used, the result is the empty-merge failure, and the
store and stats are unchanged. -/
theorem C10_unknown_source_witness :
    run_update ⟨[("EUR_USD", ⟨.num (.fin 1), "T0", "test"⟩)], some "T0", []⟩
        ⟨3, 2, 1, some "T0", some "old"⟩ "bogus"
        (.ok [("BTC_USD", .num (.fin 2))]) (.apiError "x") "T" =
      (⟨false, msgEmpty, none, some 0, none, none⟩,
       ⟨[("EUR_USD", ⟨.num (.fin 1), "T0", "test"⟩)], some "T0", []⟩,
       ⟨3, 2, 1, some "T0", some "old"⟩) :=
  C10_unknown_source_no_effect _ _ _ _ _ _ (by decide) (by decide) (by decide)

/-- C5 counterexample: with every attempt timing out, `_make_request`
sleeps the constant `RETRY_DELAY` before each retry — the trace is
`[5, 5]` — whereas the claimed schedule `base_delay * (attempt + 1)` would
be `[5 * 1, 5 * 2] = [5, 10]`.  The linear backoff exists only in the 429
branch (api_clients.py line 79); the timeout and connection-error branches
sleep the bare `config.RETRY_DELAY` (lines 94 and 101). -/
theorem C5_timeout_backoff_not_linear :
    make_request [.timeout, .timeout, .timeout] =
      ⟨.error "Таймаут при подключении к API", [RETRY_DELAY, RETRY_DELAY]⟩ ∧
    [RETRY_DELAY, RETRY_DELAY] ≠
      [qMul RETRY_DELAY 1, qMul RETRY_DELAY 2] := by decide

/-- C5 (amended): all three transient classes retry up to the fixed
`RETRY_ATTEMPTS = 3` attempts and raise ApiRequestError once exhausted,
but only HTTP 429 backs off linearly (`5 * (attempt + 1)`, i.e. sleeps
`[5, 10]`); timeout and connection failure sleep the constant
`RETRY_DELAY = 5` before each retry (`[5, 5]`).  A retry schedule stops as
soon as an attempt succeeds. -/
theorem C5_retry_backoff_schedule :
    make_request [.timeout, .timeout, .timeout] =
      ⟨.error "Таймаут при подключении к API", [5, 5]⟩ ∧
    make_request [.connError, .connError, .connError] =
      ⟨.error "Не удалось подключиться к API", [5, 5]⟩ ∧
    make_request [.http 429, .http 429, .http 429] =
      ⟨.error "Превышен лимит запросов", [5, 10]⟩ ∧
    make_request [.timeout, .timeout, .okJson] = ⟨.ok (), [5, 5]⟩ ∧
    make_request [.http 429, .okJson, .okJson] = ⟨.ok (), [5]⟩ ∧
    make_request [.connError, .okJson, .okJson] = ⟨.ok (), [5]⟩ := by decide

end ValutaTrade
